import Mathlib

/-!
Shallow embedding of the agent-squad session supervisor core: the session
lifecycle (`Instance`), the diff-refresh engine (`updateDiffStats`), the
checkout diff with its status-snapshot cache (`GitWorktree.Diff`,
`countDiffStats`), and the debounced persistence layer (`Storage`).

Machine integers are modelled as `Int`/`Nat`; Go `time.Time` is modelled as
`GoTime` (a zero flag plus nanoseconds since the Unix epoch); fallible calls
to external collaborators (git commands, tmux, the byte store) are modelled
as explicit oracle parameters carrying `Except`/`Option` results.
-/

set_option maxRecDepth 4000

/-- Session status, mirroring the `Status` iota in `session/instance.go`:
0 = Running, 1 = Ready, 2 = Loading, 3 = Paused. -/
inductive Status where
  | Running
  | Ready
  | Loading
  | Paused
deriving DecidableEq, Repr

/-- Model of Go `time.Time`: `isZero` marks the zero Time (January 1, year 1),
`ns` is the instant as nanoseconds since the Unix epoch (meaningful whenever
the value denotes a concrete instant). -/
structure GoTime where
  isZero : Bool
  ns : Int
deriving DecidableEq, Repr

/-- Go `t.Sub(u)` as a nanosecond count. -/
def GoTime.sub (t u : GoTime) : Int := t.ns - u.ns

/-- Go `time.Unix(0, n)`. For any int64 `n` the resulting instant lies
between the years 1678 and 2262, so it is never the zero Time. -/
def goUnix0 (n : Int) : GoTime := ⟨false, n⟩

/-- The zero `time.Time` value. -/
def goZeroTime : GoTime := ⟨true, 0⟩

/-- `diffRefreshInterval = 5 * time.Second`, in nanoseconds. -/
def diffRefreshIntervalNs : Int := 5000000000

/-- Character-list helper: does the first list occur at the head of the
second (Go `strings.HasPrefix` on rune lists)? -/
def charsHasLead : List Char → List Char → Bool
  | [], _ => true
  | _ :: _, [] => false
  | p :: ps, c :: cs => p == c && charsHasLead ps cs

/-- Character-list helper: does `pat` occur contiguously inside the first
list (Go `strings.Contains` on rune lists)? -/
def charsHasSub : List Char → List Char → Bool
  | [], pat => pat.isEmpty
  | c :: rest, pat => charsHasLead pat (c :: rest) || charsHasSub rest pat

/-- Go `strings.Contains s pat`. -/
def goContains (s pat : String) : Bool := charsHasSub s.data pat.data

/-- Go `strings.Split s "\n"` on rune lists: split at every newline; the
empty input yields one empty field. -/
def splitLines : List Char → List (List Char)
  | [] => [[]]
  | c :: rest =>
    let r := splitLines rest
    if c = '\n' then [] :: r
    else (c :: r.headD []) :: r.tail

/-- `git.DiffStats` from `session/git`: full diff content, added/removed line
counts, and the optional error carried through the flow. -/
structure DiffStats where
  Content : String
  Added : Nat
  Removed : Nat
  Error : Option String
deriving DecidableEq, Repr

/-- `DiffStats.IsEmpty`. -/
def DiffStats.IsEmpty (d : DiffStats) : Bool :=
  d.Added == 0 && d.Removed == 0 && d.Content == ""

/-- One iteration of the counting loop in `countDiffStats`: skip empty lines,
count lines whose first byte is `+` unless they start with `+++`, and lines
whose first byte is `-` unless they start with `---`. -/
def lineTally (acc : Nat × Nat) (cs : List Char) : Nat × Nat :=
  if cs.length = 0 then acc
  else if cs.headD ' ' = '+' then
    if charsHasLead ['+', '+', '+'] cs then acc else (acc.1 + 1, acc.2)
  else if cs.headD ' ' = '-' then
    if charsHasLead ['-', '-', '-'] cs then acc else (acc.1, acc.2 + 1)
  else acc

/-- `countDiffStats` from `session/git`: split the diff content on newlines
and tally added/removed lines; the empty content yields `(0, 0)`. -/
def countDiffStats (content : String) : Nat × Nat :=
  if content = "" then (0, 0)
  else (splitLines content.data).foldl lineTally (0, 0)

/-- Spec-side predicate (from the claim's words): a non-empty line starting
with `+` that does not start with `+++`. -/
def specAddedLine (cs : List Char) : Bool :=
  !cs.isEmpty && cs.take 1 == ['+'] && !(cs.take 3 == ['+', '+', '+'])

/-- Spec-side predicate (from the claim's words): a non-empty line starting
with `-` that does not start with `---`. -/
def specRemovedLine (cs : List Char) : Bool :=
  !cs.isEmpty && cs.take 1 == ['-'] && !(cs.take 3 == ['-', '-', '-'])

lemma charsHasLead_eq_take (ps cs : List Char) :
    charsHasLead ps cs = (cs.take ps.length == ps) := by
  induction ps generalizing cs with
  | nil => cases cs <;> rfl
  | cons p ps ih =>
    cases cs with
    | nil => rfl
    | cons c cs =>
      have hcomm : (p == c) = (c == p) := by
        by_cases h : p = c
        · simp [h]
        · simp [h, Ne.symm h]
      simp [charsHasLead, ih, List.take, hcomm]

lemma lineTally_eq (acc : Nat × Nat) (cs : List Char) :
    lineTally acc cs =
      (acc.1 + (if specAddedLine cs then 1 else 0),
       acc.2 + (if specRemovedLine cs then 1 else 0)) := by
  unfold lineTally specAddedLine specRemovedLine
  match cs with
  | [] => simp
  | c :: rest =>
    have hlen : ¬((c :: rest).length = 0) := by simp
    rw [if_neg hlen, charsHasLead_eq_take, charsHasLead_eq_take]
    by_cases hp : c = '+'
    · subst hp
      rw [List.headD_cons, if_pos rfl]
      by_cases h3 : rest.take 2 = ['+', '+']
      · simp [List.take, h3]
      · simp [List.take, h3]
    · by_cases hm : c = '-'
      · subst hm
        rw [List.headD_cons, if_neg (by decide), if_pos rfl]
        by_cases h3 : rest.take 2 = ['-', '-']
        · simp [List.take, h3]
        · simp [List.take, h3]
      · rw [List.headD_cons, if_neg hp, if_neg hm]
        simp [List.take, hp, hm]

lemma foldl_lineTally (ls : List (List Char)) (a r : Nat) :
    ls.foldl lineTally (a, r) =
      (a + (ls.filter specAddedLine).length,
       r + (ls.filter specRemovedLine).length) := by
  induction ls generalizing a r with
  | nil => simp
  | cons line rest ih =>
    simp only [List.foldl_cons, lineTally_eq, List.filter_cons]
    by_cases hA : specAddedLine line = true <;>
      by_cases hR : specRemovedLine line = true <;>
        simp [hA, hR, ih, Nat.add_assoc, Nat.add_comm 1]

/-- C8: for every diff text, `countDiffStats` returns the number of non-empty
lines starting with `+` that do not start with `+++` as the added count, and
the number of non-empty lines starting with `-` that do not start with `---`
as the removed count; the empty text yields `(0, 0)`. -/
theorem countDiffStats_counts_spec_lines (content : String) :
    countDiffStats content =
      (((splitLines content.data).filter specAddedLine).length,
       ((splitLines content.data).filter specRemovedLine).length)
    ∧ countDiffStats "" = (0, 0) := by
  refine ⟨?_, rfl⟩
  unfold countDiffStats
  by_cases h : content = ""
  · subst h
    rfl
  · rw [if_neg h, foldl_lineTally]
    simp

/-- `git.GitWorktree`: the checkout handle. Identity fields plus the
status-snapshot diff cache (`lastDiff`, `lastStatusSnapshot`) and the
`lastDiffCheckedAt` wall-clock record. -/
structure GitWorktree where
  repoPath : String
  worktreePath : String
  sessionName : String
  branchName : String
  baseCommitSHA : String
  lastDiff : Option DiffStats
  lastStatusSnapshot : String
  lastDiffCheckedAt : Int
deriving DecidableEq, Repr

/-- `git.NewGitWorktreeFromStorage`. Modelled from the spec: the constructor
body is not under `src/` (only its callers and tests are); per the spec's
serialized worktree record (§6) and the tests, it stores the five identity
fields and leaves the diff cache empty. -/
def newGitWorktreeFromStorage (repoPath worktreePath sessionName
    branchName baseCommitSHA : String) : GitWorktree :=
  { repoPath := repoPath
    worktreePath := worktreePath
    sessionName := sessionName
    branchName := branchName
    baseCommitSHA := baseCommitSHA
    lastDiff := none
    lastStatusSnapshot := ""
    lastDiffCheckedAt := 0 }

/-- `GitWorktree.InvalidateDiffCache`. Modelled from the spec: the method
body is not under `src/` (only its callers and tests are); per §4.4, "an
externally-triggered cache invalidation must clear both `lastDiff` and
`last_snapshot`". -/
def GitWorktree.InvalidateDiffCache (g : GitWorktree) : GitWorktree :=
  { g with lastDiff := none, lastStatusSnapshot := "" }

/-- Results of the underlying git commands a single `Diff` call may run, in
program order: the first `status --porcelain`, the `add -N .` intent-to-add,
the re-read `status --porcelain`, and the `diff <base>`. -/
structure GitEnv where
  statusOutput : Except String String
  addIntent : Except String Unit
  statusOutput2 : Except String String
  diffOutput : Except String String

/-- Outcome of one `GitWorktree.Diff` call: the returned stats, the updated
handle, whether the cached `lastDiff` copy was returned, and whether the
`diff <base>` command was executed. -/
structure DiffRunResult where
  stats : DiffStats
  wt : GitWorktree
  cacheHit : Bool
  ranDiff : Bool

/-- `GitWorktree.Diff(force)` from `session/git`: read the porcelain status
as the status signature; on a cache hit (not forced, a previous `lastDiff`
exists, signature unchanged) return a copy of `lastDiff`; otherwise run
intent-to-add for untracked entries, re-read the status, compute the diff
against the base commit, count its lines, store the new snapshot, and return
the stats. Any command error is returned in `DiffStats.Error` without
touching the cache. `now` is the wall clock read after the first status
command succeeds. -/
def GitWorktree.Diff (env : GitEnv) (now : Int) (force : Bool)
    (g : GitWorktree) : DiffRunResult :=
  match env.statusOutput with
  | .error e => ⟨⟨"", 0, 0, some e⟩, g, false, false⟩
  | .ok statusOutput =>
    let g := { g with lastDiffCheckedAt := now }
    let statusSignature := statusOutput
    if !force && g.lastDiff.isSome
        && (statusSignature == g.lastStatusSnapshot) then
      ⟨g.lastDiff.getD ⟨"", 0, 0, none⟩, g, true, false⟩
    else
      let afterAdd : Except String String :=
        if goContains statusOutput "?? " then
          match env.addIntent with
          | .error e => .error e
          | .ok _ =>
            match env.statusOutput2 with
            | .error e => .error e
            | .ok s2 => .ok s2
        else .ok statusSignature
      match afterAdd with
      | .error e => ⟨⟨"", 0, 0, some e⟩, g, false, false⟩
      | .ok sig2 =>
        match env.diffOutput with
        | .error e => ⟨⟨"", 0, 0, some e⟩, g, false, false⟩
        | .ok content =>
          let counts := countDiffStats content
          let stats : DiffStats := ⟨content, counts.1, counts.2, none⟩
          ⟨stats,
           { g with lastStatusSnapshot := sig2, lastDiff := some stats },
           false, true⟩

/-- C2: a `Diff(false)` call with an existing `lastDiff` whose freshly read
status signature equals the stored snapshot returns a copy of `lastDiff`
without recomputing the diff; and — on a handle whose cached stats carry no
error, the only kind the code ever stores — whenever any underlying command
fails, the returned stats carry that command's error and neither `lastDiff`
nor the snapshot signature is updated. -/
theorem diff_cache_hit_and_error_shortcircuit (env : GitEnv) (now : Int)
    (g : GitWorktree) (hg : ∀ d, g.lastDiff = some d → d.Error = none) :
    (∀ d sig, g.lastDiff = some d → env.statusOutput = .ok sig →
      sig = g.lastStatusSnapshot →
      (GitWorktree.Diff env now false g).stats = d
        ∧ (GitWorktree.Diff env now false g).ranDiff = false)
    ∧ (∀ force e, (GitWorktree.Diff env now force g).stats.Error = some e →
        ((GitWorktree.Diff env now force g).wt.lastDiff = g.lastDiff
          ∧ (GitWorktree.Diff env now force g).wt.lastStatusSnapshot
              = g.lastStatusSnapshot)
        ∧ (env.statusOutput = .error e ∨ env.addIntent = .error e
            ∨ env.statusOutput2 = .error e ∨ env.diffOutput = .error e)) := by
  constructor
  · intro d sig hd hst hsig
    simp [GitWorktree.Diff, hst, hd, hsig]
  · intro force e
    match hst : env.statusOutput with
    | .error e0 =>
      simp only [GitWorktree.Diff, hst]
      intro h
      injection h with h
      subst h
      exact ⟨⟨by trivial, by trivial⟩, Or.inl rfl⟩
    | .ok statusOutput =>
      simp only [GitWorktree.Diff, hst]
      by_cases hhit : (!force && g.lastDiff.isSome
          && (statusOutput == g.lastStatusSnapshot)) = true
      · simp only [hhit, if_true]
        intro h
        exfalso
        obtain ⟨d, hd⟩ := Option.isSome_iff_exists.mp
          (Bool.and_elim_right (Bool.and_elim_left hhit))
        rw [hd] at h
        simp only [Option.getD_some] at h
        rw [hg d hd] at h
        exact Option.noConfusion h
      · simp only [hhit, if_false, Bool.false_eq_true]
        by_cases hun : goContains statusOutput "?? " = true
        · simp only [hun, if_true]
          match hai : env.addIntent with
          | .error ea =>
            simp only
            intro h
            injection h with h
            subst h
            exact ⟨⟨by trivial, by trivial⟩, Or.inr (Or.inl rfl)⟩
          | .ok _ =>
            match hs2 : env.statusOutput2 with
            | .error e2 =>
              simp only
              intro h
              injection h with h
              subst h
              exact ⟨⟨by trivial, by trivial⟩, Or.inr (Or.inr (Or.inl rfl))⟩
            | .ok s2 =>
              match hdo : env.diffOutput with
              | .error ed =>
                simp only
                intro h
                injection h with h
                subst h
                exact ⟨⟨by trivial, by trivial⟩, Or.inr (Or.inr (Or.inr rfl))⟩
              | .ok content =>
                simp only
                intro h
                exact Option.noConfusion h
        · simp only [hun, if_false, Bool.false_eq_true]
          match hdo : env.diffOutput with
          | .error ed =>
            simp only
            intro h
            injection h with h
            subst h
            exact ⟨⟨by trivial, by trivial⟩, Or.inr (Or.inr (Or.inr rfl))⟩
          | .ok content =>
            simp only
            intro h
            exact Option.noConfusion h

/-- Witness for `diff_cache_hit_and_error_shortcircuit` at a concrete
environment: a cached hit with signature `"sig"`, and the error clause
applied to a failing first status command. -/
theorem diff_cache_hit_and_error_shortcircuit_witness :
    (GitWorktree.Diff ⟨.ok "sig", .ok (), .ok "sig", .ok ""⟩ 7 false
        { repoPath := "r", worktreePath := "w", sessionName := "s",
          branchName := "b", baseCommitSHA := "sha",
          lastDiff := some ⟨"D", 1, 2, none⟩,
          lastStatusSnapshot := "sig", lastDiffCheckedAt := 0 }).stats
      = ⟨"D", 1, 2, none⟩
    ∧ (GitWorktree.Diff ⟨.error "boom", .ok (), .ok "", .ok ""⟩ 7 true
        { repoPath := "r", worktreePath := "w", sessionName := "s",
          branchName := "b", baseCommitSHA := "sha",
          lastDiff := some ⟨"D", 1, 2, none⟩,
          lastStatusSnapshot := "sig",
          lastDiffCheckedAt := 0 }).wt.lastDiff = some ⟨"D", 1, 2, none⟩ := by
  constructor
  · exact ((diff_cache_hit_and_error_shortcircuit
      ⟨.ok "sig", .ok (), .ok "sig", .ok ""⟩ 7
      { repoPath := "r", worktreePath := "w", sessionName := "s",
        branchName := "b", baseCommitSHA := "sha",
        lastDiff := some ⟨"D", 1, 2, none⟩,
        lastStatusSnapshot := "sig", lastDiffCheckedAt := 0 }
      (by intro d hd; injection hd with hd; rw [← hd])).1
      ⟨"D", 1, 2, none⟩ "sig" rfl rfl rfl).1
  · exact ((diff_cache_hit_and_error_shortcircuit
      ⟨.error "boom", .ok (), .ok "", .ok ""⟩ 7
      { repoPath := "r", worktreePath := "w", sessionName := "s",
        branchName := "b", baseCommitSHA := "sha",
        lastDiff := some ⟨"D", 1, 2, none⟩,
        lastStatusSnapshot := "sig", lastDiffCheckedAt := 0 }
      (by intro d hd; injection hd with hd; rw [← hd])).2
      true "boom" rfl).1.1


/-- `tmux.TmuxSession` identity data as the supervisor sees it: the session
name and the program; all behavior flows through oracle parameters. -/
structure TmuxSession where
  name : String
  program : String
deriving DecidableEq, Repr

/-- `session.Instance`: one supervised session. Atomics (`diffDirty`,
`previewDirty`, `lastDiffCheck`) are plain fields in this single-threaded
model; the tmux session and git worktree pointers are `Option`s. -/
structure Instance where
  Title : String
  Path : String
  Branch : String
  Status : Status
  Program : String
  Height : Int
  Width : Int
  CreatedAt : GoTime
  UpdatedAt : GoTime
  AutoYes : Bool
  Prompt : String
  diffStats : Option DiffStats
  diffDirty : Bool
  previewDirty : Bool
  lastDiffCheck : Int
  diffWatcherDisabled : Bool
  started : Bool
  tmuxSession : Option TmuxSession
  gitWorktree : Option GitWorktree
deriving DecidableEq, Repr

/-- The Go zero value `Instance{}` (used by the tests to build a bare
session): empty strings, `Status` 0 = Running, false flags, nil pointers. -/
def zeroInstance : Instance :=
  { Title := "", Path := "", Branch := "", Status := Status.Running,
    Program := "", Height := 0, Width := 0,
    CreatedAt := goZeroTime, UpdatedAt := goZeroTime,
    AutoYes := false, Prompt := "", diffStats := none,
    diffDirty := false, previewDirty := false, lastDiffCheck := 0,
    diffWatcherDisabled := false, started := false,
    tmuxSession := none, gitWorktree := none }

/-- `InstanceOptions` for `NewInstance`. -/
structure InstanceOptions where
  Title : String
  Path : String
  Program : String
  AutoYes : Bool
deriving DecidableEq, Repr

/-- `NewInstance` from `session/instance.go`: resolve the absolute path
(`absRes` is the oracle result of `filepath.Abs`), build the instance with
status Ready, and set both dirty flags to true. -/
def newInstance (absRes : Except String String) (now : GoTime)
    (opts : InstanceOptions) : Except String Instance :=
  match absRes with
  | .error e => .error ("failed to get absolute path: " ++ e)
  | .ok absPath =>
    .ok { Title := opts.Title, Path := absPath, Branch := "",
          Status := Status.Ready, Program := opts.Program,
          Height := 0, Width := 0, CreatedAt := now, UpdatedAt := now,
          AutoYes := false, Prompt := "", diffStats := none,
          diffDirty := true, previewDirty := true, lastDiffCheck := 0,
          diffWatcherDisabled := false, started := false,
          tmuxSession := none, gitWorktree := none }

/-- `Instance.MarkPreviewDirty`. -/
def markPreviewDirty (i : Instance) : Instance :=
  { i with previewDirty := true }

/-- `Instance.IsPreviewDirty`. -/
def isPreviewDirty (i : Instance) : Bool := i.previewDirty

/-- `Instance.MarkDiffDirty`: set the diff-dirty flag and, when the worktree
pointer is non-nil, invalidate its diff cache. -/
def markDiffDirty (i : Instance) : Instance :=
  let j : Instance := { i with diffDirty := true }
  match j.gitWorktree with
  | none => j
  | some g => { j with gitWorktree := some g.InvalidateDiffCache }

/-- C10: `MarkDiffDirty` on a session whose checkout handle is non-null sets
the session's diff-dirty flag and invalidates the handle's status-snapshot
diff cache (clearing `lastDiff` and the stored snapshot signature), so the
next `Diff(false)` does not return a cached result. -/
theorem markDiffDirty_invalidates (i : Instance) (g : GitWorktree)
    (h : i.gitWorktree = some g) :
    (markDiffDirty i).diffDirty = true
    ∧ (markDiffDirty i).gitWorktree = some g.InvalidateDiffCache
    ∧ g.InvalidateDiffCache.lastDiff = none
    ∧ g.InvalidateDiffCache.lastStatusSnapshot = ""
    ∧ ∀ env now,
        (GitWorktree.Diff env now false g.InvalidateDiffCache).cacheHit
          = false := by
  refine ⟨?_, ?_, rfl, rfl, ?_⟩
  · simp [markDiffDirty, h]
  · simp [markDiffDirty, h]
  · intro env now
    cases hst : env.statusOutput with
    | error e => simp [GitWorktree.Diff, hst]
    | ok s =>
      simp only [GitWorktree.Diff, hst, GitWorktree.InvalidateDiffCache]
      by_cases hun : goContains s "?? " = true <;>
        cases hai : env.addIntent <;>
          cases hs2 : env.statusOutput2 <;>
            cases hdo : env.diffOutput <;>
              simp [hun, hai, hs2, hdo]

/-- Witness for `markDiffDirty_invalidates` on a concrete started session
holding a concrete worktree. -/
theorem markDiffDirty_invalidates_witness :
    (markDiffDirty
      { zeroInstance with
          Title := "t", started := true,
          gitWorktree := some
            { repoPath := "r", worktreePath := "w", sessionName := "t",
              branchName := "b", baseCommitSHA := "sha",
              lastDiff := some ⟨"D", 1, 2, none⟩,
              lastStatusSnapshot := "sig",
              lastDiffCheckedAt := 3 } }).diffDirty = true := by
  exact (markDiffDirty_invalidates
    { zeroInstance with
        Title := "t", started := true,
        gitWorktree := some
          { repoPath := "r", worktreePath := "w", sessionName := "t",
            branchName := "b", baseCommitSHA := "sha",
            lastDiff := some ⟨"D", 1, 2, none⟩,
            lastStatusSnapshot := "sig",
            lastDiffCheckedAt := 3 } }
    { repoPath := "r", worktreePath := "w", sessionName := "t",
      branchName := "b", baseCommitSHA := "sha",
      lastDiff := some ⟨"D", 1, 2, none⟩,
      lastStatusSnapshot := "sig",
      lastDiffCheckedAt := 3 } rfl).1

/-- C9 counterexample: a session freshly constructed by `NewInstance`
reports `IsPreviewDirty() = true`, not `false` — `NewInstance` stores `true`
into the preview-dirty flag before returning. -/
theorem newInstance_preview_dirty_cex :
    newInstance (.ok "/abs") ⟨false, 0⟩
        { Title := "t", Path := "p", Program := "claude", AutoYes := false }
      = .ok { Title := "t", Path := "/abs", Branch := "",
              Status := Status.Ready, Program := "claude",
              Height := 0, Width := 0,
              CreatedAt := ⟨false, 0⟩, UpdatedAt := ⟨false, 0⟩,
              AutoYes := false, Prompt := "", diffStats := none,
              diffDirty := true, previewDirty := true, lastDiffCheck := 0,
              diffWatcherDisabled := false, started := false,
              tmuxSession := none, gitWorktree := none }
    ∧ isPreviewDirty
        { Title := "t", Path := "/abs", Branch := "",
          Status := Status.Ready, Program := "claude",
          Height := 0, Width := 0,
          CreatedAt := ⟨false, 0⟩, UpdatedAt := ⟨false, 0⟩,
          AutoYes := false, Prompt := "", diffStats := none,
          diffDirty := true, previewDirty := true, lastDiffCheck := 0,
          diffWatcherDisabled := false, started := false,
          tmuxSession := none, gitWorktree := none } = true :=
  ⟨rfl, rfl⟩

/-- C9 (amended): a zero-value session — the fresh construction used by test
S1 — reports `IsPreviewDirty() = false`; a session built by `NewInstance`
reports `true`; for every session, `MarkPreviewDirty` makes the flag report
`true`, and directly clearing the flag makes it report `false`. -/
theorem preview_dirty_cycle :
    isPreviewDirty zeroInstance = false
    ∧ (∀ i : Instance, isPreviewDirty (markPreviewDirty i) = true)
    ∧ (∀ i : Instance, isPreviewDirty { i with previewDirty := false }
        = false)
    ∧ (∀ a t o j, newInstance a t o = .ok j → isPreviewDirty j = true) := by
  refine ⟨rfl, fun i => rfl, fun i => rfl, ?_⟩
  intro a t o j h
  cases a with
  | error e => exact Except.noConfusion h
  | ok s =>
    injection h with h
    subst h
    rfl

/-- Witness for `preview_dirty_cycle`: its `NewInstance` clause applied to a
concrete successful construction. -/
theorem preview_dirty_cycle_witness :
    isPreviewDirty
      { Title := "t", Path := "/abs", Branch := "",
        Status := Status.Ready, Program := "claude",
        Height := 0, Width := 0,
        CreatedAt := ⟨false, 0⟩, UpdatedAt := ⟨false, 0⟩,
        AutoYes := false, Prompt := "", diffStats := none,
        diffDirty := true, previewDirty := true, lastDiffCheck := 0,
        diffWatcherDisabled := false, started := false,
        tmuxSession := none, gitWorktree := none } = true :=
  preview_dirty_cycle.2.2.2 (.ok "/abs") ⟨false, 0⟩
    { Title := "t", Path := "p", Program := "claude", AutoYes := false }
    _ rfl

/-- Outcome of one `UpdateDiffStats` call: the updated session, the returned
error, and the `force` arguments of the `Diff` invocations made (empty when
`Diff` was not called). -/
structure UpdateResult where
  inst : Instance
  err : Option String
  diffCalls : List Bool

/-- The refresh critical section of `UpdateDiffStats` (under `diffMu`): call
the worktree's `Diff(force)`; a "base commit SHA not set" error is benign
(clear stats, re-mark dirty, succeed); any other error re-marks dirty and is
wrapped; on success store the stats and the last-check clock. -/
def refreshDiffLocked (env : GitEnv) (diffNow : Int) (now : GoTime)
    (force : Bool) (i : Instance) (wt : GitWorktree) : UpdateResult :=
  let r := GitWorktree.Diff env diffNow force wt
  let j : Instance := { i with gitWorktree := some r.wt }
  match r.stats.Error with
  | some e =>
    if goContains e "base commit SHA not set" then
      ⟨markDiffDirty { j with diffStats := none }, none, [force]⟩
    else
      ⟨markDiffDirty j, some ("failed to get diff stats: " ++ e), [force]⟩
  | none =>
    ⟨{ j with diffStats := some r.stats, lastDiffCheck := now.ns }, none,
      [force]⟩

/-- `Instance.UpdateDiffStats(now)` from `session/instance.go`: clear stats
for never-started sessions, keep stats for paused ones; otherwise swap the
dirty flag to false and decide refresh/force — dirty refreshes with
`force = diffWatcherDisabled`; a zero `now` or an elapsed 5 s interval since
`lastDiffCheck` forces a refresh; else do nothing. `none` models the nil
worktree dereference. -/
def updateDiffStats (env : GitEnv) (diffNow : Int) (now : GoTime)
    (i : Instance) : Option UpdateResult :=
  if !i.started then
    some ⟨{ i with diffStats := none }, none, []⟩
  else if i.Status = Status.Paused then
    some ⟨i, none, []⟩
  else
    let dirty := i.diffDirty
    let i : Instance := { i with diffDirty := false }
    let rf : Bool × Bool :=
      if dirty then (true, i.diffWatcherDisabled)
      else if now.isZero then (true, true)
      else
        let last := goUnix0 i.lastDiffCheck
        if last.isZero || decide (diffRefreshIntervalNs ≤ now.sub last) then
          (true, true)
        else (false, false)
    if !rf.1 then some ⟨i, none, []⟩
    else
      match i.gitWorktree with
      | none => none
      | some wt => some (refreshDiffLocked env diffNow now rf.2 i wt)

lemma refreshDiffLocked_calls (env : GitEnv) (diffNow : Int) (now : GoTime)
    (force : Bool) (i : Instance) (wt : GitWorktree) :
    (refreshDiffLocked env diffNow now force i wt).diffCalls = [force] := by
  unfold refreshDiffLocked
  rcases herr : (GitWorktree.Diff env diffNow force wt).stats.Error with _ | e
  · simp [herr]
  · simp only [herr]
    by_cases hb : goContains e "base commit SHA not set" = true <;>
      simp [hb]

/-- C1: on a started, non-paused session, `UpdateDiffStats(now)` invokes the
checkout handle's `Diff` exactly when the dirty flag was set, or `now` is
zero, or `now − lastDiffCheck ≥ 5 s`; the force argument is
`diffWatcherDisabled` in the dirty case and `true` in the two non-dirty
refresh cases; otherwise `Diff` is not called. -/
theorem updateDiffStats_refresh_decision (env : GitEnv) (diffNow : Int)
    (now : GoTime) (i : Instance) (wt : GitWorktree)
    (hs : i.started = true) (hp : i.Status ≠ Status.Paused)
    (hw : i.gitWorktree = some wt) :
    ∃ r, updateDiffStats env diffNow now i = some r
      ∧ r.diffCalls =
          (if i.diffDirty = true ∨ now.isZero = true
              ∨ diffRefreshIntervalNs ≤ now.ns - i.lastDiffCheck
           then [if i.diffDirty then i.diffWatcherDisabled else true]
           else []) := by
  unfold updateDiffStats
  rw [hs]
  simp only [Bool.not_true, Bool.false_eq_true, if_false, if_neg hp]
  by_cases hd : i.diffDirty = true
  · simp only [hd, if_true, Bool.not_true, Bool.false_eq_true, if_false]
    rw [show ({ i with diffDirty := false } : Instance).gitWorktree
          = some wt from hw]
    refine ⟨_, rfl, ?_⟩
    rw [refreshDiffLocked_calls]
    simp [hd]
  · simp only [hd, if_false, Bool.false_eq_true]
    by_cases hz : now.isZero = true
    · simp only [hz, if_true, Bool.not_true, Bool.false_eq_true, if_false]
      rw [show ({ i with diffDirty := false } : Instance).gitWorktree
            = some wt from hw]
      refine ⟨_, rfl, ?_⟩
      rw [refreshDiffLocked_calls]
      simp
    · simp only [hz, if_false, Bool.false_eq_true, goUnix0, GoTime.sub,
        goUnix0]
      by_cases hiv : diffRefreshIntervalNs ≤ now.ns - i.lastDiffCheck
      · simp only [GoTime.sub, decide_eq_true_eq, hiv, if_pos,
          Bool.false_or, if_true, decide_True, Bool.or_true,
          Bool.not_true, Bool.false_eq_true, if_false]
        rw [show ({ i with diffDirty := false } : Instance).gitWorktree
              = some wt from hw]
        refine ⟨_, rfl, ?_⟩
        rw [refreshDiffLocked_calls]
        simp
      · simp only [GoTime.sub, hiv, decide_eq_false hiv, Bool.or_false,
          Bool.not_false, if_true]
        refine ⟨_, rfl, ?_⟩
        simp

/-- Witness for `updateDiffStats_refresh_decision`: a started Running session
with the dirty flag set and the watcher disabled refreshes with a forced
`Diff`. -/
theorem updateDiffStats_refresh_decision_witness :
    (updateDiffStats ⟨.ok "", .ok (), .ok "", .ok "d"⟩ 3 ⟨false, 9⟩
        { zeroInstance with
            Title := "t", started := true, Status := Status.Running,
            diffDirty := true, diffWatcherDisabled := true,
            gitWorktree := some (newGitWorktreeFromStorage
              "r" "w" "t" "b" "sha") }).map (fun r => r.diffCalls)
      = some [true] := by
  obtain ⟨r, h1, h2⟩ := updateDiffStats_refresh_decision
    ⟨.ok "", .ok (), .ok "", .ok "d"⟩ 3 ⟨false, 9⟩
    { zeroInstance with
        Title := "t", started := true, Status := Status.Running,
        diffDirty := true, diffWatcherDisabled := true,
        gitWorktree := some (newGitWorktreeFromStorage "r" "w" "t" "b" "sha") }
    (newGitWorktreeFromStorage "r" "w" "t" "b" "sha")
    rfl (by decide) rfl
  rw [h1]
  simp only [Option.map]
  rw [h2]
  rfl

/-- Serialized payloads as byte lists; the Go `nil` slice is `[]` (the two
compare equal under `bytes.Equal`). -/
abbrev Bytes := List Nat

/-- `cloneBytes` from `session/storage.go`: `nil` for an empty source, a copy
otherwise; `none` models the `nil` slice. -/
def cloneBytes (src : Bytes) : Option Bytes :=
  if src.isEmpty then none else some src

/-- `session.Storage`: last-saved payload, last save time, the debounce
interval, the pending payload (`none` = no pending write), whether the
debounce timer is armed, and the byte-store write log (the collaborator's
successful `SaveInstances` calls, in order). -/
structure StorageState where
  lastSavedData : Bytes
  lastSaveTime : GoTime
  debounceInterval : Int
  pendingData : Option Bytes
  timerArmed : Bool
  writes : List Bytes
deriving DecidableEq, Repr

/-- `NewStorage`: empty state with the default 5 s debounce interval. -/
def newStorage : StorageState :=
  { lastSavedData := [], lastSaveTime := goZeroTime,
    debounceInterval := 5000000000, pendingData := none,
    timerArmed := false, writes := [] }

/-- The post-marshal body of `Storage.SaveInstances` (under the mutex),
applied to the marshalled payload `jsonData`: return without I/O when the
payload equals `lastSavedData` and nothing is pending; write through when no
debounce applies; otherwise queue the payload and arm the timer. `storeErr`
is the byte store's result for a write attempt. -/
def saveInstancesBytes (storeErr : Option String) (now : GoTime)
    (jsonData : Bytes) (s : StorageState) : StorageState × Option String :=
  if jsonData = s.lastSavedData ∧ s.pendingData = none then (s, none)
  else if s.lastSaveTime.isZero = true
      ∨ s.debounceInterval ≤ now.ns - s.lastSaveTime.ns then
    match storeErr with
    | some e => (s, some e)
    | none =>
      ({ s with writes := s.writes ++ [jsonData],
                lastSavedData := jsonData, lastSaveTime := now,
                pendingData := none, timerArmed := false }, none)
  else
    ({ s with pendingData := cloneBytes jsonData, timerArmed := true }, none)

/-- `Storage.Flush`: no-op when nothing is pending; otherwise synchronously
write the pending payload, record it as last saved, stamp the save time,
clear the pending buffer and stop the timer. -/
def flush (storeErr : Option String) (now : GoTime) (s : StorageState) :
    StorageState × Option String :=
  match s.pendingData with
  | none => (s, none)
  | some p =>
    if p.length = 0 then (s, none)
    else match storeErr with
      | some e => (s, some e)
      | none =>
        ({ s with writes := s.writes ++ [p], lastSavedData := p,
                  lastSaveTime := now, pendingData := none,
                  timerArmed := false }, none)

/-- C3: starting from a fresh storage, two consecutive `SaveInstances` calls
with the same marshalled payload `b` (marshalling always yields a non-empty
payload) perform exactly one write to the byte store: the first call writes
through, the second returns success without I/O because `b` equals
`lastSavedData` and no pending write exists. -/
theorem saveInstances_dedup_single_write (b : Bytes) (hb : b ≠ [])
    (now1 now2 : GoTime) :
    (saveInstancesBytes none now1 b newStorage).2 = none
    ∧ (saveInstancesBytes none now1 b newStorage).1.lastSavedData = b
    ∧ (saveInstancesBytes none now1 b newStorage).1.pendingData = none
    ∧ (saveInstancesBytes none now1 b newStorage).1.writes = [b]
    ∧ saveInstancesBytes none now2 b
        (saveInstancesBytes none now1 b newStorage).1
      = ((saveInstancesBytes none now1 b newStorage).1, none) := by
  have h1 : saveInstancesBytes none now1 b newStorage
      = ({ newStorage with
            writes := [b],
            lastSavedData := b,
            lastSaveTime := now1,
            pendingData := none,
            timerArmed := false }, none) := by
    unfold saveInstancesBytes newStorage
    rw [if_neg (by intro h; exact hb h.1)]
    simp [goZeroTime]
  rw [h1]
  refine ⟨rfl, rfl, rfl, rfl, ?_⟩
  unfold saveInstancesBytes
  rw [if_pos ⟨rfl, rfl⟩]

/-- Witness for `saveInstances_dedup_single_write` at the concrete payload
`[91, 93]` (the bytes of `"[]"`). -/
theorem saveInstances_dedup_single_write_witness :
    (saveInstancesBytes none ⟨false, 10⟩ [91, 93] newStorage).1.writes
      = [[91, 93]]
    ∧ saveInstancesBytes none ⟨false, 20⟩ [91, 93]
        (saveInstancesBytes none ⟨false, 10⟩ [91, 93] newStorage).1
      = ((saveInstancesBytes none ⟨false, 10⟩ [91, 93] newStorage).1,
          none) := by
  obtain ⟨-, -, -, h4, h5⟩ := saveInstances_dedup_single_write [91, 93]
    (by decide) ⟨false, 10⟩ ⟨false, 20⟩
  exact ⟨h4, h5⟩

/-- C4: `Flush` is a no-op returning success when no pending write exists;
when a pending write exists it synchronously writes the pending bytes to the
byte store, sets `lastSavedData` to those bytes, updates `lastSaveTime`,
clears the pending buffer, and stops and clears the debounce timer. -/
theorem flush_contract (s : StorageState) (now : GoTime) :
    (s.pendingData = none → flush none now s = (s, none))
    ∧ (∀ p, s.pendingData = some p → p ≠ [] →
        flush none now s =
          ({ s with
              writes := s.writes ++ [p],
              lastSavedData := p,
              lastSaveTime := now,
              pendingData := none,
              timerArmed := false }, none)) := by
  constructor
  · intro h
    unfold flush
    rw [h]
  · intro p hp hne
    unfold flush
    rw [hp]
    simp only [List.length_eq_zero]
    rw [if_neg hne]

/-- Witness for `flush_contract`: the no-op clause on a fresh storage and the
write clause on a storage with pending payload `[91, 93]`. -/
theorem flush_contract_witness :
    flush none ⟨false, 30⟩ newStorage = (newStorage, none)
    ∧ flush none ⟨false, 30⟩
        { newStorage with pendingData := some [91, 93], timerArmed := true }
      = ({ newStorage with
            writes := [[91, 93]],
            lastSavedData := [91, 93],
            lastSaveTime := ⟨false, 30⟩,
            pendingData := none,
            timerArmed := false }, none) := by
  constructor
  · exact (flush_contract newStorage ⟨false, 30⟩).1 rfl
  · exact (flush_contract
      { newStorage with pendingData := some [91, 93], timerArmed := true }
      ⟨false, 30⟩).2 [91, 93] rfl (by decide)

/-- `Instance.combineErrors`: `nil` for no errors, the single error verbatim,
or a "multiple cleanup errors occurred:" message listing every error. -/
def combineErrors : List String → Option String
  | [] => none
  | [e] => some e
  | es =>
    some (es.foldl (fun acc er => acc ++ "\n  - " ++ er)
      "multiple cleanup errors occurred:")

/-- Collaborator results consumed by one `Pause` call, in program order:
stopping the diff watcher, the worktree dirtiness probe, the local commit,
the safe detach, the `os.Stat` existence probe on the worktree path, the
worktree removal and the prune. -/
structure PauseEnv where
  stopWatcherErr : Option String
  isDirty : Except String Bool
  commitErr : Option String
  detachErr : Option String
  worktreeExists : Bool
  removeErr : Option String
  pruneErr : Option String

/-- Outcome of one `Pause` call: the updated session, the returned error,
and whether `Remove`, `Prune` and `CommitChanges` were invoked. -/
structure PauseResult where
  inst : Instance
  err : Option String
  removed : Bool
  pruned : Bool
  committed : Bool

/-- Tail of `Pause` after the status transition decision: status becomes
Paused only when no error accumulated. -/
def pauseFinish (i : Instance) (errs : List String)
    (removed pruned committed : Bool) : PauseResult :=
  match combineErrors errs with
  | some e => ⟨i, some e, removed, pruned, committed⟩
  | none => ⟨{ i with Status := Status.Paused }, none, removed, pruned,
      committed⟩

/-- The part of `Pause` after the commit step: detach (continuing on error),
remove and prune the worktree when its directory exists (each aborting on
error), then finish. -/
def pauseAfterCommit (env : PauseEnv) (i : Instance) (errs : List String)
    (committed : Bool) : PauseResult :=
  let errs := match env.detachErr with
    | some e => errs ++ ["failed to detach tmux session: " ++ e]
    | none => errs
  if env.worktreeExists then
    match env.removeErr with
    | some e =>
      ⟨i, combineErrors (errs ++ ["failed to remove git worktree: " ++ e]),
        true, false, committed⟩
    | none =>
      match env.pruneErr with
      | some e =>
        ⟨i, combineErrors (errs ++ ["failed to prune git worktrees: " ++ e]),
          true, true, committed⟩
      | none => pauseFinish i errs true true committed
  else pauseFinish i errs false false committed

/-- `Instance.Pause` from `session/instance.go`: precondition guards, stop
the diff watcher (accumulating its error), commit a dirty worktree —
returning early on commit failure without removing the working copy — then
detach, remove, prune, and set status Paused only if no error accumulated. -/
def pause (env : PauseEnv) (i : Instance) : PauseResult :=
  if !i.started then
    ⟨i, some "cannot pause instance that has not been started",
      false, false, false⟩
  else if i.Status = Status.Paused then
    ⟨i, some "instance is already paused", false, false, false⟩
  else
    let errs : List String := match env.stopWatcherErr with
      | some e => ["failed to stop diff watcher: " ++ e]
      | none => []
    match env.isDirty with
    | .error e =>
      pauseAfterCommit env i
        (errs ++ ["failed to check if worktree is dirty: " ++ e]) false
    | .ok dirty =>
      if dirty then
        match env.commitErr with
        | some e =>
          ⟨i, combineErrors (errs ++ ["failed to commit changes: " ++ e]),
            false, false, true⟩
        | none => pauseAfterCommit env i errs true
      else pauseAfterCommit env i errs false

lemma combineErrors_append_isSome (l : List String) (e : String) :
    (combineErrors (l ++ [e])).isSome = true := by
  match l with
  | [] => rfl
  | [a] => rfl
  | a :: b :: rest => rfl

/-- C5: on a started, non-paused session whose working copy is dirty, a
failing `CommitChanges` makes `Pause` return an error, leaves the session
unchanged (in particular the status is not set to Paused), and neither
`Remove` nor `Prune` is invoked. -/
theorem pause_commit_failure_aborts (env : PauseEnv) (i : Instance)
    (e : String) (hs : i.started = true) (hp : i.Status ≠ Status.Paused)
    (hd : env.isDirty = .ok true) (hc : env.commitErr = some e) :
    (pause env i).err.isSome = true
    ∧ (pause env i).removed = false
    ∧ (pause env i).pruned = false
    ∧ (pause env i).inst = i
    ∧ (pause env i).inst.Status ≠ Status.Paused := by
  unfold pause
  rw [hs]
  simp only [Bool.not_true, Bool.false_eq_true, if_false, if_neg hp, hd, hc]
  refine ⟨?_, rfl, rfl, rfl, hp⟩
  exact combineErrors_append_isSome _ _

/-- Witness for `pause_commit_failure_aborts`: a concrete started Running
session with a dirty worktree and a failing commit. -/
theorem pause_commit_failure_aborts_witness :
    (pause ⟨none, .ok true, some "index locked", none, true, none, none⟩
      { zeroInstance with
          Title := "t", started := true, Status := Status.Running,
          gitWorktree := some (newGitWorktreeFromStorage
            "r" "w" "t" "b" "sha") }).removed = false := by
  exact (pause_commit_failure_aborts
    ⟨none, .ok true, some "index locked", none, true, none, none⟩
    { zeroInstance with
        Title := "t", started := true, Status := Status.Running,
        gitWorktree := some (newGitWorktreeFromStorage "r" "w" "t" "b" "sha") }
    "index locked" rfl (by decide) rfl rfl).2.1

/-- Collaborator results consumed by one `Start` call: worktree creation
(first-time only), tmux restore (restore path), worktree setup and tmux
start (first-time path) with the worktree cleanup on tmux failure, the
deferred `Kill` result on setup failure, and whether filesystem-watcher
creation succeeds. -/
structure StartEnv where
  newWorktree : Except String (GitWorktree × String)
  restoreErr : Option String
  setupErr : Option String
  tmuxStartErr : Option String
  cleanupErr : Option String
  killErr : Option String
  watcherCreateOk : Bool

/-- `Instance.startDiffWatcher`: errors only on a nil worktree or empty
worktree path; watcher-creation failure is degraded to `watcher_disabled`
with success; both outcomes mark the diff dirty. -/
def startDiffWatcher (watcherCreateOk : Bool) (i : Instance) :
    Except String Instance :=
  match i.gitWorktree with
  | none => .error "git worktree not initialized"
  | some g =>
    if g.worktreePath = "" then .error "worktree path not set"
    else if watcherCreateOk then
      .ok (markDiffDirty { i with diffWatcherDisabled := false })
    else
      .ok (markDiffDirty { i with diffWatcherDisabled := true })

/-- `Instance.GetBranch`: copy the worktree's branch name into the `Branch`
field when a worktree is present. -/
def getBranchSync (i : Instance) : Instance :=
  match i.gitWorktree with
  | some g => { i with Branch := g.branchName }
  | none => i

/-- The deferred error handler of `Start`: run `Kill` and append its error
to the setup error; `started` stays false. -/
def startFail (killErr : Option String) (i : Instance) (msg : String) :
    Instance × Option String :=
  match killErr with
  | some ce => (i, some (msg ++ " (cleanup error: " ++ ce ++ ")"))
  | none => (i, some msg)

/-- The final phase of `Start`: start the diff watcher, mark preview and
diff dirty, reset the last-diff-check clock, set status Running and flip
`started` via the deferred handler. -/
def startWatcherPhase (env : StartEnv) (i : Instance) :
    Instance × Option String :=
  match startDiffWatcher env.watcherCreateOk i with
  | .error e => startFail env.killErr i
      ("failed to initialize diff watcher: " ++ e)
  | .ok j =>
    let j := markPreviewDirty j
    let j := markDiffDirty j
    let j : Instance := { j with lastDiffCheck := 0 }
    let j : Instance := { j with Status := Status.Running }
    ({ j with started := true }, none)

/-- The region of `Start` covered by the deferred cleanup handler: restore
an existing session (restore path), or set up the worktree and start a new
tmux session (first-time path), then the watcher phase. -/
def startBody (env : StartEnv) (firstTime : Bool) (i : Instance) :
    Instance × Option String :=
  if firstTime = false then
    match env.restoreErr with
    | some e => startFail env.killErr i
        ("failed to restore existing session: " ++ e)
    | none => startWatcherPhase env (getBranchSync i)
  else
    match env.setupErr with
    | some e => startFail env.killErr i
        ("failed to setup git worktree: " ++ e)
    | none =>
      match env.tmuxStartErr with
      | some e =>
        let msg := match env.cleanupErr with
          | some ce => e ++ " (cleanup error: " ++ ce ++ ")"
          | none => e
        startFail env.killErr i ("failed to start new session: " ++ msg)
      | none => startWatcherPhase env i

/-- `Instance.Start(firstTimeSetup)` from `session/instance.go`: reject an
empty title; reuse or create the tmux session; on first-time setup create
the worktree (failing before the deferred handler is installed); then the
deferred-handler region. Note the source performs no check of the `started`
flag. -/
def start (env : StartEnv) (firstTime : Bool) (i : Instance) :
    Instance × Option String :=
  if i.Title = "" then (i, some "instance title cannot be empty")
  else
    let tmux : TmuxSession := match i.tmuxSession with
      | some t => t
      | none => ⟨i.Title, i.Program⟩
    let i : Instance := { i with tmuxSession := some tmux }
    if firstTime then
      match env.newWorktree with
      | .error e => (i, some ("failed to create git worktree: " ++ e))
      | .ok gw =>
        startBody env firstTime
          { i with gitWorktree := some gw.1, Branch := gw.2 }
    else startBody env firstTime i

/-- C6 counterexample: `Start` performs no check of the `started` flag — on
a session with `started = true` and a non-empty title, with benign
collaborators, `Start(false)` returns no error instead of rejecting the
call. -/
theorem start_skips_started_check_cex :
    (start ⟨.error "unused", none, none, none, none, none, true⟩ false
      { zeroInstance with
          Title := "x", started := true, Status := Status.Ready,
          tmuxSession := some ⟨"x", "claude"⟩,
          gitWorktree := some (newGitWorktreeFromStorage
            "r" "w" "x" "b" "sha") }).2 = none
    ∧ ({ zeroInstance with
          Title := "x", started := true, Status := Status.Ready,
          tmuxSession := some ⟨"x", "claude"⟩,
          gitWorktree := some (newGitWorktreeFromStorage
            "r" "w" "x" "b" "sha") } : Instance).started = true
    ∧ ({ zeroInstance with
          Title := "x", started := true, Status := Status.Ready,
          tmuxSession := some ⟨"x", "claude"⟩,
          gitWorktree := some (newGitWorktreeFromStorage
            "r" "w" "x" "b" "sha") } : Instance).Title = "x" := by
  refine ⟨rfl, rfl, rfl⟩

/-- C6 (amended): `Start` enforces only the title precondition — called with
an empty title it returns the error "instance title cannot be empty" and
leaves the session unchanged; the `started = false` requirement is an
unchecked precondition, not enforced by an error return. -/
theorem start_title_guard (env : StartEnv) (ft : Bool) (i : Instance)
    (h : i.Title = "") :
    start env ft i = (i, some "instance title cannot be empty") := by
  unfold start
  rw [if_pos h]

/-- Witness for `start_title_guard` on the zero-value session, whose title
is empty. -/
theorem start_title_guard_witness :
    start ⟨.error "unused", none, none, none, none, none, true⟩ false
        zeroInstance
      = (zeroInstance, some "instance title cannot be empty") :=
  start_title_guard ⟨.error "unused", none, none, none, none, none, true⟩
    false zeroInstance rfl

/-- `GitWorktreeData` from `session/storage.go`. -/
structure GitWorktreeData where
  RepoPath : String
  WorktreePath : String
  SessionName : String
  BranchName : String
  BaseCommitSHA : String
deriving DecidableEq, Repr

/-- `DiffStatsData` from `session/storage.go`. -/
structure DiffStatsData where
  Added : Nat
  Removed : Nat
  Content : String
deriving DecidableEq, Repr

/-- `InstanceData` from `session/storage.go`: the serialized session
record. -/
structure InstanceData where
  Title : String
  Path : String
  Branch : String
  Status : Status
  Height : Int
  Width : Int
  CreatedAt : GoTime
  UpdatedAt : GoTime
  AutoYes : Bool
  Program : String
  Worktree : GitWorktreeData
  DiffStats : DiffStatsData
deriving DecidableEq, Repr

/-- `Instance.ToInstanceData`: serialize the session, rewriting `UpdatedAt`
to `nowT` (the `time.Now()` at serialization), including the worktree record
only when the handle is non-nil and the stats record only when present. -/
def toInstanceData (nowT : GoTime) (i : Instance) : InstanceData :=
  { Title := i.Title, Path := i.Path, Branch := i.Branch,
    Status := i.Status, Height := i.Height, Width := i.Width,
    CreatedAt := i.CreatedAt, UpdatedAt := nowT,
    AutoYes := i.AutoYes, Program := i.Program,
    Worktree := match i.gitWorktree with
      | some g => ⟨g.repoPath, g.worktreePath, i.Title, g.branchName,
          g.baseCommitSHA⟩
      | none => ⟨"", "", "", "", ""⟩,
    DiffStats := match i.diffStats with
      | some d => ⟨d.Added, d.Removed, d.Content⟩
      | none => ⟨0, 0, ""⟩ }

/-- The instance literal built at the top of `FromInstanceData`. The
record's `AutoYes` field is not copied (the Go struct literal omits it, so
it zeroes to false). -/
def instFromData (d : InstanceData) : Instance :=
  { Title := d.Title, Path := d.Path, Branch := d.Branch,
    Status := d.Status, Height := d.Height, Width := d.Width,
    CreatedAt := d.CreatedAt, UpdatedAt := d.UpdatedAt,
    Program := d.Program, AutoYes := false, Prompt := "",
    gitWorktree := some (newGitWorktreeFromStorage d.Worktree.RepoPath
      d.Worktree.WorktreePath d.Worktree.SessionName d.Worktree.BranchName
      d.Worktree.BaseCommitSHA),
    diffStats := some ⟨d.DiffStats.Content, d.DiffStats.Added,
      d.DiffStats.Removed, none⟩,
    diffDirty := true, previewDirty := true, lastDiffCheck := 0,
    diffWatcherDisabled := false, started := false, tmuxSession := none }

/-- `FromInstanceData`: materialize a session from a record. A Paused record
is marked started with a fresh tmux handle and a branch sync; any other
record goes through `Start(false)`. -/
def fromInstanceData (env : StartEnv) (d : InstanceData) :
    Except String Instance :=
  let inst := instFromData d
  if inst.Status = Status.Paused then
    .ok (getBranchSync
      { inst with started := true,
                  tmuxSession := some ⟨inst.Title, inst.Program⟩ })
  else
    match start env false inst with
    | (_, some e) => .error e
    | (j, none) => .ok j

lemma start_restore_ok (env : StartEnv) (i : Instance) (nw : GitWorktree)
    (hw : i.gitWorktree = some nw) (hwp : nw.worktreePath ≠ "")
    (ht : i.Title ≠ "") (hre : env.restoreErr = none) :
    ∃ j, start env false i = (j, none)
      ∧ j.Title = i.Title ∧ j.Path = i.Path ∧ j.Height = i.Height
      ∧ j.Width = i.Width ∧ j.Program = i.Program
      ∧ j.Branch = nw.branchName ∧ j.AutoYes = i.AutoYes
      ∧ j.Status = Status.Running ∧ j.started = true := by
  unfold start startBody startWatcherPhase startDiffWatcher getBranchSync
    markPreviewDirty markDiffDirty
  rw [if_neg ht]
  simp only [hre, hw, if_neg hwp]
  by_cases hwc : env.watcherCreateOk = true <;>
    simp [hwc, hw, hwp, GitWorktree.InvalidateDiffCache]

/-- C7 counterexample: the persistence round trip does not preserve
`auto_yes` and `status` — a started Ready session with `AutoYes = true`
round-trips to a Running session with `AutoYes = false`
(`FromInstanceData` never copies the record's `auto_yes`, and the
non-paused path re-runs `Start`, which sets status Running). -/
theorem roundtrip_drops_autoyes_cex :
    (fromInstanceData ⟨.error "unused", none, none, none, none, none, true⟩
        (toInstanceData ⟨false, 99⟩
          { zeroInstance with
              Title := "t", started := true, Status := Status.Ready,
              AutoYes := true, Branch := "b",
              tmuxSession := some ⟨"t", "claude"⟩,
              gitWorktree := some (newGitWorktreeFromStorage
                "r" "w" "t" "b" "sha") })).map
        (fun j => (j.AutoYes, j.Status))
      = .ok (false, Status.Running)
    ∧ ({ zeroInstance with
          Title := "t", started := true, Status := Status.Ready,
          AutoYes := true, Branch := "b",
          tmuxSession := some ⟨"t", "claude"⟩,
          gitWorktree := some (newGitWorktreeFromStorage
            "r" "w" "t" "b" "sha") } : Instance).AutoYes = true
    ∧ ({ zeroInstance with
          Title := "t", started := true, Status := Status.Ready,
          AutoYes := true, Branch := "b",
          tmuxSession := some ⟨"t", "claude"⟩,
          gitWorktree := some (newGitWorktreeFromStorage
            "r" "w" "t" "b" "sha") } : Instance).Status = Status.Ready := by
  refine ⟨rfl, rfl, rfl⟩

/-- C7 (amended): for a started session with a checkout handle, the
persistence round trip preserves `title`, `path`, `height`, `width` and
`program`; `branch` becomes the stored worktree's branch name; `auto_yes`
is not restored and becomes false; a Paused status is preserved while any
other status becomes Running (the record is re-started). -/
theorem roundtrip_preserved_fields (env : StartEnv) (nowT : GoTime)
    (i : Instance) (g : GitWorktree) (hs : i.started = true)
    (hw : i.gitWorktree = some g) (hwp : g.worktreePath ≠ "")
    (ht : i.Title ≠ "") (hre : env.restoreErr = none) :
    ∃ j, fromInstanceData env (toInstanceData nowT i) = .ok j
      ∧ j.Title = i.Title ∧ j.Path = i.Path ∧ j.Height = i.Height
      ∧ j.Width = i.Width ∧ j.Program = i.Program
      ∧ j.Branch = g.branchName ∧ j.AutoYes = false
      ∧ j.Status = (if i.Status = Status.Paused then Status.Paused
          else Status.Running) := by
  simp only [fromInstanceData]
  have hstat : (instFromData (toInstanceData nowT i)).Status = i.Status := rfl
  by_cases hpz : i.Status = Status.Paused
  · rw [if_pos (by rw [hstat]; exact hpz)]
    refine ⟨_, rfl, ?_, ?_, ?_, ?_, ?_, ?_, ?_, ?_⟩ <;>
      simp [getBranchSync, instFromData, toInstanceData,
        newGitWorktreeFromStorage, hw, hpz]
  · rw [if_neg (by rw [hstat]; exact hpz)]
    obtain ⟨j, hj, h1, h2, h3, h4, h5, h6, h7, h8, -⟩ :=
      start_restore_ok env (instFromData (toInstanceData nowT i))
        (newGitWorktreeFromStorage (toInstanceData nowT i).Worktree.RepoPath
          (toInstanceData nowT i).Worktree.WorktreePath
          (toInstanceData nowT i).Worktree.SessionName
          (toInstanceData nowT i).Worktree.BranchName
          (toInstanceData nowT i).Worktree.BaseCommitSHA)
        rfl
        (by simpa [toInstanceData, hw, newGitWorktreeFromStorage] using hwp)
        (by simpa [instFromData, toInstanceData] using ht)
        hre
    rw [hj]
    refine ⟨j, rfl, ?_, ?_, ?_, ?_, ?_, ?_, ?_, ?_⟩
    · simpa [instFromData, toInstanceData] using h1
    · simpa [instFromData, toInstanceData] using h2
    · simpa [instFromData, toInstanceData] using h3
    · simpa [instFromData, toInstanceData] using h4
    · simpa [instFromData, toInstanceData] using h5
    · rw [h6]
      simp [toInstanceData, newGitWorktreeFromStorage, hw]
    · rw [h7]
      rfl
    · rw [if_neg hpz]
      exact h8

/-- Witness for `roundtrip_preserved_fields`: a concrete started Running
session with `AutoYes = true` round-trips with title preserved and
`AutoYes` reset. -/
theorem roundtrip_preserved_fields_witness :
    (fromInstanceData
        ⟨.error "unused", none, none, none, none, none, false⟩
        (toInstanceData ⟨false, 5⟩
          { zeroInstance with
              Title := "w", started := true, Status := Status.Running,
              AutoYes := true,
              gitWorktree := some (newGitWorktreeFromStorage
                "r" "w" "w" "b" "sha") })).map
        (fun j => (j.Title, j.AutoYes))
      = .ok ("w", false) := by
  obtain ⟨j, hj, h1, -, -, -, -, -, h7, -⟩ :=
    roundtrip_preserved_fields
      ⟨.error "unused", none, none, none, none, none, false⟩ ⟨false, 5⟩
      { zeroInstance with
          Title := "w", started := true, Status := Status.Running,
          AutoYes := true,
          gitWorktree := some (newGitWorktreeFromStorage "r" "w" "w" "b"
            "sha") }
      (newGitWorktreeFromStorage "r" "w" "w" "b" "sha")
      rfl rfl (by decide) (by decide) rfl
  rw [hj]
  simp [Except.map, h1, h7]
